import Mathlib

/-!
Shallow embedding of `prometheus_govee_exporter/main.py` (a Prometheus
exporter for Govee GVH5072/GVH5075 BLE temperature/humidity sensors),
together with proofs about its payload decoder and its advertisement
filtering/label-resolution logic.

Conventions of the embedding:
* Python `bytes` values are `List Nat` (each element a byte value);
* Python `dict` values are association lists, looked up with `List.lookup`
  (first matching key wins, as dictionary keys are unique);
* Python `float` arithmetic on the decoded decimal quantities is modelled
  exactly over `ℚ`;
* Python exceptions (`KeyError` from `data[0xec88]`, `IndexError` from
  `temp_data[4]`) are modelled by an `Option` result: `none` is failure.
-/

/-- Python `int.from_bytes(bs, 'big')`: big-endian interpretation of a
byte sequence as a natural number. -/
def fromBytesBE (bs : List Nat) : Nat := bs.foldl (fun acc b => acc * 256 + b) 0

/-- `parse_gvh5072_5075_data` from `main.py` lines 29-88. Looks up
manufacturer key `0xEC88`; reads bytes 1-3 big-endian (`temp_data[1:4]`,
which in Python silently truncates when the payload is short); tests and
masks the sign bit `0x800000`; temperature is `masked / 10000` (negated
when the sign bit was set), humidity is `(masked % 1000) / 10`, battery is
the raw byte `temp_data[4]` (whose access is the only place an out-of-range
index can fail, since slices never fail). -/
def parse_gvh5072_5075_data (data : List (Nat × List Nat)) : Option (ℚ × ℚ × Nat) :=
  match data.lookup 0xEC88 with
  | none => none
  | some temp_data =>
    let temp_vals := fromBytesBE ((temp_data.drop 1).take 3)
    let is_negative := temp_vals &&& 0x800000
    let temp_masked := temp_vals &&& 0x7FFFFF
    let temp : ℚ := (temp_masked : ℚ) / 10000
    let humidity : ℚ := ((temp_masked % 1000 : Nat) : ℚ) / 10
    let temp_signed : ℚ := if is_negative ≠ 0 then -temp else temp
    match temp_data.get? 4 with
    | none => none
    | some battery_vals => some (temp_signed, humidity, battery_vals)

/-- The temperature value the decoder produces from the 24-bit word
`temp_vals` (lines 75-83 of `main.py`). -/
def tempVal (v : Nat) : ℚ :=
  if v &&& 0x800000 ≠ 0 then -(((v &&& 0x7FFFFF : Nat) : ℚ) / 10000)
  else ((v &&& 0x7FFFFF : Nat) : ℚ) / 10000

/-- Humidity as a function of the masked magnitude (line 80 of `main.py`):
`(temp_vals % 1_000) / 10`. -/
def humOfMag (m : Nat) : ℚ := ((m % 1000 : Nat) : ℚ) / 10

/-- The humidity value the decoder produces from the 24-bit word
`temp_vals` (lines 76 and 80 of `main.py`). -/
def humVal (v : Nat) : ℚ := humOfMag (v &&& 0x7FFFFF)

/-- Unfolding of the decoder on a payload with at least five bytes. -/
theorem parse_quintuple (data : List (Nat × List Nat)) (a b c d e : Nat)
    (rest : List Nat) (hp : data.lookup 0xEC88 = some (a :: b :: c :: d :: e :: rest)) :
    parse_gvh5072_5075_data data =
      some (tempVal (fromBytesBE [b, c, d]), humVal (fromBytesBE [b, c, d]), e) := by
  simp only [parse_gvh5072_5075_data, hp, List.drop_succ_cons, List.drop_zero,
    List.take_succ_cons, List.take_zero]
  simp [tempVal, humVal, humOfMag]

/-- A list of length at least five starts with five explicit elements. -/
theorem exists_quintuple (p : List Nat) (h : 5 ≤ p.length) :
    ∃ a b c d e rest, p = a :: b :: c :: d :: e :: rest := by
  match p, h with
  | a :: b :: c :: d :: e :: rest, _ => exact ⟨a, b, c, d, e, rest, rfl⟩

/-- Eliminating a successful run of the decoder: the temperature and
humidity are `tempVal`/`humVal` of the 24-bit word read at offsets 1-3,
and the battery is the byte at offset 4. -/
theorem parse_eq_some_elim (data : List (Nat × List Nat)) (p : List Nat)
    (t h : ℚ) (b : Nat) (hp : data.lookup 0xEC88 = some p)
    (hres : parse_gvh5072_5075_data data = some (t, h, b)) :
    t = tempVal (fromBytesBE ((p.drop 1).take 3)) ∧
    h = humVal (fromBytesBE ((p.drop 1).take 3)) ∧
    p.get? 4 = some b := by
  simp only [parse_gvh5072_5075_data, hp] at hres
  cases hget : p.get? 4 with
  | none => rw [hget] at hres; simp at hres
  | some e =>
    rw [hget] at hres
    simp only [Option.some.injEq, Prod.mk.injEq] at hres
    obtain ⟨ht, hh, hb⟩ := hres
    subst hb
    refine ⟨ht.symm, hh.symm, rfl⟩

/-- A successful run of the decoder requires at least five payload bytes,
so its failure is exactly `p.get? 4 = none`. -/
theorem parse_none_iff_get (data : List (Nat × List Nat)) (p : List Nat)
    (hp : data.lookup 0xEC88 = some p) :
    parse_gvh5072_5075_data data = none ↔ p.get? 4 = none := by
  simp only [parse_gvh5072_5075_data, hp]
  cases hget : p.get? 4 <;> simp [hget]

/-- The sign test `temp_vals & 0x800000` of line 75 is nonzero exactly when
bit 23 is set. -/
theorem and_sign_bit (v : Nat) : (v &&& 0x800000 ≠ 0) ↔ v.testBit 23 = true := by
  have h : (0x800000 : ℕ) = 2 ^ 23 := by norm_num
  rw [h, Nat.and_two_pow]
  cases hb : v.testBit 23 <;> simp [hb]

/-- `tempVal` rephrased through `Nat.testBit`. -/
theorem tempVal_testBit (v : Nat) :
    tempVal v =
      if v.testBit 23 then -(((v &&& 0x7FFFFF : Nat) : ℚ) / 10000)
      else ((v &&& 0x7FFFFF : Nat) : ℚ) / 10000 := by
  by_cases hb : v.testBit 23 = true
  · rw [tempVal, if_pos ((and_sign_bit v).mpr hb), if_pos hb]
  · rw [tempVal, if_neg (fun hc => hb ((and_sign_bit v).mp hc)), if_neg hb]

/-- Flipping bit 23 does not change the masked 23-bit magnitude. -/
theorem xor_sign_and_mask (v : Nat) :
    (v ^^^ 0x800000) &&& 0x7FFFFF = v &&& 0x7FFFFF := by
  apply Nat.eq_of_testBit_eq
  intro i
  have hpow : Nat.testBit 0x800000 i = decide (23 = i) := by
    rw [show (0x800000 : ℕ) = 2 ^ 23 from by norm_num, Nat.testBit_two_pow]
  by_cases hi : i = 23
  · have hmask : Nat.testBit 0x7FFFFF 23 = false := by decide
    simp [hi, Nat.testBit_and, hmask]
  · simp [Nat.testBit_and, Nat.testBit_xor, hpow, Ne.symm hi]

/-- The negative-temperature example payload: V = 0x834198 has bit 23 set
and magnitude 213400, so the temperature decodes to -21.34 °C. -/
theorem parse_neg_example :
    parse_gvh5072_5075_data [(0xEC88, [0x00, 0x83, 0x41, 0x98, 0x64])] =
      some (-(2134 / 100), 40, 100) := by
  have h1 : (8602008 : ℕ) &&& 8388608 = 8388608 := by decide
  have h2 : (8602008 : ℕ) &&& 8388607 = 213400 := by decide
  simp [parse_gvh5072_5075_data, fromBytesBE, List.lookup, h1, h2]
  norm_num

/-- C1: on the manufacturer-data mapping sending 0xEC88 to the bytes
[0x00, 0x01, 0x02, 0x03, 0x50], the decoder returns exactly temperature
6.6051 °C, humidity 5.1 %, and battery 80. -/
theorem parse_example_payload :
    parse_gvh5072_5075_data [(0xEC88, [0x00, 0x01, 0x02, 0x03, 0x50])] =
      some (66051 / 10000, 51 / 10, 80) := by
  have h1 : (66051 : ℕ) &&& 8388608 = 0 := by decide
  have h2 : (66051 : ℕ) &&& 8388607 = 66051 := by decide
  simp [parse_gvh5072_5075_data, fromBytesBE, List.lookup, h1, h2]

/-- C2: for every sufficiently long payload at vendor key 0xEC88, with V
the 24-bit big-endian integer at offsets 1-3 and M its low 23 bits, the
decoded temperature is M/10000 when bit 23 of V is clear and -(M/10000)
when bit 23 is set; in particular bytes 0x83 0x41 0x98 (magnitude 213400,
sign bit set) decode to -21.34 °C. -/
theorem parse_temperature_sign :
    (∀ (data : List (Nat × List Nat)) (p : List Nat) (t h : ℚ) (b : Nat),
      data.lookup 0xEC88 = some p →
      parse_gvh5072_5075_data data = some (t, h, b) →
      t = if (fromBytesBE ((p.drop 1).take 3)).testBit 23
          then -(((fromBytesBE ((p.drop 1).take 3) &&& 0x7FFFFF : Nat) : ℚ) / 10000)
          else ((fromBytesBE ((p.drop 1).take 3) &&& 0x7FFFFF : Nat) : ℚ) / 10000) ∧
    parse_gvh5072_5075_data [(0xEC88, [0x00, 0x83, 0x41, 0x98, 0x64])] =
      some (-(2134 / 100), 40, 100) := by
  constructor
  · intro data p t h b hp hres
    obtain ⟨ht, -, -⟩ := parse_eq_some_elim data p t h b hp hres
    rw [ht, tempVal_testBit]
  · exact parse_neg_example

/-- Witness for C2 at the concrete negative-temperature payload. -/
theorem parse_temperature_sign_witness :
    (-(2134 / 100) : ℚ) =
      if (fromBytesBE ((([0x00, 0x83, 0x41, 0x98, 0x64] : List Nat).drop 1).take 3)).testBit 23
      then -(((fromBytesBE ((([0x00, 0x83, 0x41, 0x98, 0x64] : List Nat).drop 1).take 3) &&& 0x7FFFFF : Nat) : ℚ) / 10000)
      else ((fromBytesBE ((([0x00, 0x83, 0x41, 0x98, 0x64] : List Nat).drop 1).take 3) &&& 0x7FFFFF : Nat) : ℚ) / 10000 :=
  parse_temperature_sign.1 [(0xEC88, [0x00, 0x83, 0x41, 0x98, 0x64])]
    [0x00, 0x83, 0x41, 0x98, 0x64] (-(2134 / 100)) 40 100 rfl parse_temperature_sign.2

/-- C3: the decoded humidity is (M mod 1000)/10 for the masked magnitude M;
it is unchanged by flipping the sign bit 23 and depends only on the
magnitude mod 1000; magnitude 123456 gives humidity 45.6. -/
theorem parse_humidity_mod1000 :
    (∀ (data : List (Nat × List Nat)) (p : List Nat) (t h : ℚ) (b : Nat),
      data.lookup 0xEC88 = some p →
      parse_gvh5072_5075_data data = some (t, h, b) →
      h = humOfMag (fromBytesBE ((p.drop 1).take 3) &&& 0x7FFFFF)) ∧
    (∀ v : Nat, humVal (v ^^^ 0x800000) = humVal v) ∧
    (∀ m m' : Nat, m % 1000 = m' % 1000 → humOfMag m = humOfMag m') ∧
    humOfMag 123456 = 456 / 10 := by
  refine ⟨?_, ?_, ?_, ?_⟩
  · intro data p t h b hp hres
    obtain ⟨-, hh, -⟩ := parse_eq_some_elim data p t h b hp hres
    rw [hh, humVal]
  · intro v
    rw [humVal, humVal, xor_sign_and_mask]
  · intro m m' hmm
    rw [humOfMag, humOfMag, hmm]
  · norm_num [humOfMag]

/-- Witness for C3 at the concrete negative-temperature payload. -/
theorem parse_humidity_mod1000_witness :
    (40 : ℚ) =
      humOfMag (fromBytesBE ((([0x00, 0x83, 0x41, 0x98, 0x64] : List Nat).drop 1).take 3) &&& 0x7FFFFF) :=
  parse_humidity_mod1000.1 [(0xEC88, [0x00, 0x83, 0x41, 0x98, 0x64])]
    [0x00, 0x83, 0x41, 0x98, 0x64] (-(2134 / 100)) 40 100 rfl parse_neg_example

/-- C4: the decoder fails exactly when the mapping lacks vendor key 0xEC88
or the payload there has fewer than five bytes; on any payload of at least
five bytes it returns a triple. -/
theorem parse_failure_iff :
    ∀ data : List (Nat × List Nat),
      (parse_gvh5072_5075_data data = none ↔
        data.lookup 0xEC88 = none ∨
          ∃ p, data.lookup 0xEC88 = some p ∧ p.length < 5) ∧
      (∀ p, data.lookup 0xEC88 = some p → 5 ≤ p.length →
        ∃ r, parse_gvh5072_5075_data data = some r) := by
  intro data
  constructor
  · cases hp : data.lookup 0xEC88 with
    | none =>
      simp [parse_gvh5072_5075_data, hp]
    | some p =>
      rw [parse_none_iff_get data p hp, List.get?_eq_none]
      constructor
      · intro hlen
        exact Or.inr ⟨p, rfl, by omega⟩
      · rintro (hc | ⟨q, hq, hlen⟩)
        · exact absurd hc (by simp)
        · obtain rfl : p = q := Option.some.inj hq
          omega
  · intro p hp hlen
    obtain ⟨a, b, c, d, e, rest, rfl⟩ := exists_quintuple p hlen
    exact ⟨_, parse_quintuple data a b c d e rest hp⟩

/-- Witness for C4 at a concrete five-byte payload. -/
theorem parse_failure_iff_witness :
    ∃ r, parse_gvh5072_5075_data [(0xEC88, [1, 2, 3, 4, 5])] = some r :=
  (parse_failure_iff [(0xEC88, [1, 2, 3, 4, 5])]).2 [1, 2, 3, 4, 5] rfl (by simp)

/-- C10: the decoder depends only on the payload bytes at offsets 1-4: two
mappings whose 0xEC88 payloads have length at least five and agree at
offsets 1, 2, 3 and 4 decode identically. -/
theorem decode_depends_on_bytes_1_4 :
    ∀ (data data' : List (Nat × List Nat)) (p p' : List Nat),
      data.lookup 0xEC88 = some p → data'.lookup 0xEC88 = some p' →
      5 ≤ p.length → 5 ≤ p'.length →
      p.get? 1 = p'.get? 1 → p.get? 2 = p'.get? 2 →
      p.get? 3 = p'.get? 3 → p.get? 4 = p'.get? 4 →
      parse_gvh5072_5075_data data = parse_gvh5072_5075_data data' := by
  intro data data' p p' hp hp' hl hl' e1 e2 e3 e4
  obtain ⟨a, b, c, d, e, rest, rfl⟩ := exists_quintuple p hl
  obtain ⟨a', b', c', d', e', rest', rfl⟩ := exists_quintuple p' hl'
  simp only [List.get?_cons_succ, List.get?_cons_zero, Option.some.injEq] at e1 e2 e3 e4
  subst e1; subst e2; subst e3; subst e4
  rw [parse_quintuple _ _ _ _ _ _ _ hp, parse_quintuple _ _ _ _ _ _ _ hp']

/-- Witness for C10: a pair of mappings differing at offset 0 and in the
trailing bytes decode identically. -/
theorem decode_depends_on_bytes_1_4_witness :
    parse_gvh5072_5075_data [(0xEC88, [7, 1, 2, 3, 4])] =
      parse_gvh5072_5075_data [(0xEC88, [9, 1, 2, 3, 4, 99])] :=
  decode_depends_on_bytes_1_4 [(0xEC88, [7, 1, 2, 3, 4])] [(0xEC88, [9, 1, 2, 3, 4, 99])]
    [7, 1, 2, 3, 4] [9, 1, 2, 3, 4, 99] rfl rfl (by simp) (by simp)
    rfl rfl rfl rfl

/-- Counterexample to C5 as stated: a well-formed five-byte payload whose
battery byte is 0xC8 decodes to battery 200, which is not between 0 and
100. -/
theorem battery_above_100_example :
    parse_gvh5072_5075_data [(0xEC88, [0x00, 0x00, 0x00, 0x00, 0xC8])] =
      some (0, 0, 200) ∧ ¬ (200 ≤ 100) := by
  refine ⟨?_, by omega⟩
  simp [parse_gvh5072_5075_data, fromBytesBE, List.lookup]

/-- C5 (amended): the decoded battery value is the raw byte at offset 4
with no scaling; for byte-valued payloads it is below 256, and it lies
within 0-100 exactly when that raw byte does. -/
theorem battery_raw_byte :
    ∀ (data : List (Nat × List Nat)) (p : List Nat) (t h : ℚ) (b : Nat),
      data.lookup 0xEC88 = some p →
      parse_gvh5072_5075_data data = some (t, h, b) →
      p.get? 4 = some b ∧ ((∀ x ∈ p, x < 256) → b < 256) := by
  intro data p t h b hp hres
  obtain ⟨-, -, hget⟩ := parse_eq_some_elim data p t h b hp hres
  exact ⟨hget, fun hbytes => hbytes b (List.get?_mem hget)⟩

/-- Witness for the amended C5 at a concrete payload. -/
theorem battery_raw_byte_witness :
    ([0x00, 0x00, 0x00, 0x00, 0xC8] : List Nat).get? 4 = some 200 ∧
      ((∀ x ∈ ([0x00, 0x00, 0x00, 0x00, 0xC8] : List Nat), x < 256) → 200 < 256) :=
  battery_raw_byte [(0xEC88, [0x00, 0x00, 0x00, 0x00, 0xC8])]
    [0x00, 0x00, 0x00, 0x00, 0xC8] 0 0 200 rfl battery_above_100_example.1

/-- Python `device_name.startswith('GVH')` (line 265 of `main.py`). -/
def hasGVHMarker (s : String) : Bool :=
  match s.data with
  | 'G' :: 'V' :: 'H' :: _ => true
  | _ => false

/-- The characters before the first underscore. -/
def takeUntilUnderscore : List Char → List Char
  | [] => []
  | c :: rest => if c = '_' then [] else c :: takeUntilUnderscore rest

/-- Python `device_name.split('_')[0]` (line 276 of `main.py`): the part of
the identifier before the first underscore (the whole identifier when there
is none). -/
def deviceModel (s : String) : String := ⟨takeUntilUnderscore s.data⟩

/-- Python truthiness of `self.devices.get(device_name)` (line 270 of
`main.py`): falsy when the key is absent, and also when the stored label is
the empty string. -/
def pyFalsyLabel : Option String → Bool
  | none => true
  | some s => s.data.isEmpty

/-- Outcome of the scan-filter / label-resolution step of
`GoveeExporter.on_advertisement` (lines 263-274 together with the label
resolution of line 306). -/
inductive FilterOutcome where
  | rejectedSilent : FilterOutcome
  | rejectedTraced : FilterOutcome
  | accepted : String → FilterOutcome
deriving DecidableEq

/-- Lines 263-274 and 306 of `main.py`: drop identifiers without the `GVH`
marker silently; with a non-empty allow-list, drop (with an informational
trace) identifiers whose lookup is falsy; otherwise resolve the label with
`self.devices.get(device_name, device_name)`. -/
def scanFilter (devices : List (String × String)) (device_name : String) : FilterOutcome :=
  if !(hasGVHMarker device_name) then .rejectedSilent
  else if pyFalsyLabel (devices.lookup device_name) && !devices.isEmpty then .rejectedTraced
  else .accepted ((devices.lookup device_name).getD device_name)

/-- One row of metric updates, as pushed to the four gauges by lines
308-310 of `main.py`. -/
structure MetricUpdate where
  device : String
  label : String
  temp_c : ℚ
  temp_f : ℚ
  humidity : ℚ
  battery : Nat
deriving DecidableEq

/-- Result of one call of `GoveeExporter.on_advertisement`: silently
ignored, ignored with an informational trace, failed while decoding, or a
full metric update. -/
inductive AdvOutcome where
  | ignoredSilent : AdvOutcome
  | ignoredTraced : AdvOutcome
  | decodeFailed : AdvOutcome
  | updated : MetricUpdate → AdvOutcome
deriving DecidableEq

/-- Round-half-to-even of a rational to an integer, the rounding Python's
built-in `round` performs. -/
def roundHalfEven (x : ℚ) : ℤ :=
  if x - ⌊x⌋ < 1 / 2 then ⌊x⌋
  else if 1 / 2 < x - ⌊x⌋ then ⌊x⌋ + 1
  else if ⌊x⌋ % 2 = 0 then ⌊x⌋ else ⌊x⌋ + 1

/-- Python `round(x, 2)`: round to two decimal places, ties to even. -/
def pyRound2 (x : ℚ) : ℚ := (roundHalfEven (x * 100) : ℚ) / 100

/-- The registry `GOVEE_PARSERS` of `main.py` lines 91-94: both supported
model names map to the one decoder. -/
def GOVEE_PARSERS : List (String × (List (Nat × List Nat) → Option (ℚ × ℚ × Nat))) :=
  [("GVH5072", parse_gvh5072_5075_data), ("GVH5075", parse_gvh5072_5075_data)]

/-- `GoveeExporter.on_advertisement` (lines 245-320 of `main.py`), as a
function of the configured devices, the advertising device's name and its
manufacturer data. The permanently disabled `if 0:` threshold branch of
lines 283-301 is dead code and contributes nothing. -/
def on_advertisement (devices : List (String × String)) (device_name : String)
    (manufacturer_data : List (Nat × List Nat)) : AdvOutcome :=
  if !(hasGVHMarker device_name) then .ignoredSilent
  else if pyFalsyLabel (devices.lookup device_name) && !devices.isEmpty then .ignoredTraced
  else
    match GOVEE_PARSERS.lookup (deviceModel device_name) with
    | none => .ignoredSilent
    | some pfn =>
      match pfn manufacturer_data with
      | none => .decodeFailed
      | some (temp_c, humidity, battery) =>
        let temp_f := pyRound2 (32 + 9 * temp_c / 5)
        let device_label := (devices.lookup device_name).getD device_name
        .updated ⟨device_name, device_label, temp_c, temp_f, humidity, battery⟩

/-- A string whose character list is empty is the empty string. -/
theorem string_eq_empty_of_data (s : String) (h : s.data = []) : s = "" := by
  cases s with
  | mk d =>
    have hd : d = [] := h
    subst hd
    rfl

/-- Eliminating a metric-updating run of the advertisement handler: the
device field is the identifier, the label is resolved with
`devices.get(device_name, device_name)`, and the Fahrenheit field is the
rounded conversion of the Celsius field. -/
theorem on_advertisement_updated_elim (devices : List (String × String))
    (name : String) (mdata : List (Nat × List Nat)) (u : MetricUpdate)
    (hu : on_advertisement devices name mdata = .updated u) :
    u.device = name ∧ u.label = (devices.lookup name).getD name ∧
    u.temp_f = pyRound2 (32 + 9 * u.temp_c / 5) := by
  cases hg : hasGVHMarker name with
  | false => simp [on_advertisement, hg] at hu
  | true =>
    cases hc : pyFalsyLabel (devices.lookup name) && !devices.isEmpty with
    | true => simp [on_advertisement, hg, hc] at hu
    | false =>
      cases hpl : GOVEE_PARSERS.lookup (deviceModel name) with
      | none => simp [on_advertisement, hg, hc, hpl] at hu
      | some pfn =>
        cases hres : pfn mdata with
        | none => simp [on_advertisement, hg, hc, hpl, hres] at hu
        | some r =>
          obtain ⟨tc, hum, bat⟩ := r
          simp only [on_advertisement, hg, hc, hpl, hres, Bool.not_true,
            Bool.false_eq_true, if_false, AdvOutcome.updated.injEq] at hu
          subst hu
          exact ⟨rfl, rfl, rfl⟩

/-- Counterexample to C6 as stated: with the non-empty allow-list mapping
"GVH5075_ABCD" to the empty label, the identifier "GVH5075_ABCD" is a key
of the allow-list and is nevertheless rejected at the allow-list step
(Python's `not device_label` is also true for the empty string). -/
theorem allowlist_empty_label_rejected :
    ([("GVH5075_ABCD", "")] : List (String × String)).lookup "GVH5075_ABCD" =
      some "" ∧
    scanFilter [("GVH5075_ABCD", "")] "GVH5075_ABCD" =
      FilterOutcome.rejectedTraced ∧
    on_advertisement [("GVH5075_ABCD", "")] "GVH5075_ABCD" [] =
      AdvOutcome.ignoredTraced := by
  refine ⟨by decide, by decide, by decide⟩

/-- C6 (amended): for a non-empty allow-list and a "GVH"-prefixed
identifier, an identifier that is not a key is rejected with a trace; an
identifier that is a key with a NON-EMPTY configured label is not rejected
at the allow-list step, and the label attached to its metrics is that
configured value (a key with the empty label is rejected like a missing
key). The spec's example allow-list accepts "GVH5075_ABCD" with label
"Living Room" and rejects "GVH5075_WXYZ". -/
theorem allowlist_filtering :
    (∀ (devices : List (String × String)) (name : String),
      devices ≠ [] → hasGVHMarker name = true →
      (devices.lookup name = none → scanFilter devices name = .rejectedTraced) ∧
      (∀ l, devices.lookup name = some l → l ≠ "" →
        scanFilter devices name = .accepted l ∧
        ∀ (mdata : List (Nat × List Nat)) (u : MetricUpdate),
          on_advertisement devices name mdata = .updated u → u.label = l)) ∧
    scanFilter [("GVH5075_ABCD", "Living Room")] "GVH5075_ABCD" =
      FilterOutcome.accepted "Living Room" ∧
    scanFilter [("GVH5075_ABCD", "Living Room")] "GVH5075_WXYZ" =
      FilterOutcome.rejectedTraced := by
  refine ⟨?_, by decide, by decide⟩
  intro devices name hne hgvh
  have hemp : devices.isEmpty = false := by
    cases devices with
    | nil => exact absurd rfl hne
    | cons q qs => rfl
  constructor
  · intro hlk
    simp [scanFilter, hgvh, hlk, pyFalsyLabel, hemp]
  · intro l hlk hl
    have hfal : pyFalsyLabel (some l) = false := by
      simp only [pyFalsyLabel]
      cases hd : l.data with
      | nil => exact absurd (string_eq_empty_of_data l hd) hl
      | cons c cs => rfl
    refine ⟨by simp [scanFilter, hgvh, hlk, hfal], ?_⟩
    intro mdata u hu
    obtain ⟨-, hlabel, -⟩ := on_advertisement_updated_elim devices name mdata u hu
    rw [hlabel, hlk]
    rfl

/-- Witness for the amended C6 at the spec's example allow-list. -/
theorem allowlist_filtering_witness :
    scanFilter [("GVH5075_ABCD", "Living Room")] "GVH5075_ABCD" =
      FilterOutcome.accepted "Living Room" :=
  ((allowlist_filtering.1 [("GVH5075_ABCD", "Living Room")] "GVH5075_ABCD"
      (by decide) (by decide)).2 "Living Room" rfl (by decide)).1

/-- C7: an identifier without the "GVH" marker is rejected silently, for
every allow-list: no metric update and no trace. -/
theorem no_gvh_marker_silent :
    ∀ (devices : List (String × String)) (name : String)
      (mdata : List (Nat × List Nat)),
      hasGVHMarker name = false →
      scanFilter devices name = FilterOutcome.rejectedSilent ∧
      on_advertisement devices name mdata = AdvOutcome.ignoredSilent := by
  intro devices name mdata h
  exact ⟨by simp [scanFilter, h], by simp [on_advertisement, h]⟩

/-- Witness for C7 at the identifier "ABCD1234". -/
theorem no_gvh_marker_silent_witness :
    scanFilter [("GVH5075_ABCD", "Living Room")] "ABCD1234" =
      FilterOutcome.rejectedSilent ∧
    on_advertisement [("GVH5075_ABCD", "Living Room")] "ABCD1234" [] =
      AdvOutcome.ignoredSilent :=
  no_gvh_marker_silent [("GVH5075_ABCD", "Living Room")] "ABCD1234" [] (by decide)

/-- C8: with an empty allow-list, every "GVH"-prefixed identifier passes
the filter and the label attached to its metrics is the identifier
itself. -/
theorem empty_allowlist_accepts :
    ∀ name : String, hasGVHMarker name = true →
      scanFilter [] name = FilterOutcome.accepted name ∧
      ∀ (mdata : List (Nat × List Nat)) (u : MetricUpdate),
        on_advertisement [] name mdata = .updated u → u.label = name := by
  intro name h
  constructor
  · simp [scanFilter, h]
  · intro mdata u hu
    obtain ⟨-, hlabel, -⟩ := on_advertisement_updated_elim [] name mdata u hu
    simpa using hlabel

/-- Witness for C8 at the identifier "GVH5075_ABCD". -/
theorem empty_allowlist_accepts_witness :
    scanFilter [] "GVH5075_ABCD" = FilterOutcome.accepted "GVH5075_ABCD" :=
  (empty_allowlist_accepts "GVH5075_ABCD" (by decide)).1

/-- Round-half-to-even lands within one half of its argument. -/
theorem roundHalfEven_close (x : ℚ) : |(roundHalfEven x : ℚ) - x| ≤ 1 / 2 := by
  have hf : (⌊x⌋ : ℚ) ≤ x := Int.floor_le x
  have hc : x < ⌊x⌋ + 1 := Int.lt_floor_add_one x
  rw [roundHalfEven]
  split
  · rename_i h
    rw [abs_le]
    constructor <;> linarith
  · split
    · rename_i h1 h2
      rw [abs_le]
      push_cast
      constructor <;> linarith
    · split
      · rename_i h1 h2 h3
        rw [abs_le]
        constructor <;> linarith
      · rename_i h1 h2 h3
        rw [abs_le]
        push_cast
        constructor <;> linarith

/-- Rounding to two decimal places lands within 1/200 of the argument. -/
theorem pyRound2_close (x : ℚ) : |pyRound2 x - x| ≤ 1 / 200 := by
  have h := roundHalfEven_close (x * 100)
  have h2 : pyRound2 x - x = (((roundHalfEven (x * 100)) : ℚ) - x * 100) / 100 := by
    rw [pyRound2]; ring
  rw [h2, abs_div]
  have h100 : |(100 : ℚ)| = 100 := by norm_num
  rw [h100]
  linarith

/-- A fully evaluated run of the advertisement handler at temperature
0 °C, used as the concrete instance for the Fahrenheit claim. -/
theorem on_advertisement_zero_example :
    on_advertisement [] "GVH5075_AB" [(0xEC88, [0, 0, 0, 0, 100])] =
      AdvOutcome.updated ⟨"GVH5075_AB", "GVH5075_AB", 0, 32, 0, 100⟩ := by
  have hg : hasGVHMarker "GVH5075_AB" = true := by decide
  have hpl : GOVEE_PARSERS.lookup (deviceModel "GVH5075_AB") =
      some parse_gvh5072_5075_data := rfl
  have hres : parse_gvh5072_5075_data [(0xEC88, [0, 0, 0, 0, 100])] =
      some (0, 0, 100) := by
    simp [parse_gvh5072_5075_data, fromBytesBE, List.lookup]
  have hf : pyRound2 32 = 32 := by
    norm_num [pyRound2, roundHalfEven]
  simp [on_advertisement, hg, hpl, hres, hf]

/-- C9: the Fahrenheit value attached to every metric update is
32 + 9.celsius/5 rounded to two decimal places (ties to even); the rounded
value is an integer number of hundredths within 1/200 of the exact
conversion; and celsius 0 gives 32.00, celsius 100 gives 212.00, celsius
-40 gives -40.00. -/
theorem fahrenheit_rounding :
    (∀ (devices : List (String × String)) (name : String)
        (mdata : List (Nat × List Nat)) (u : MetricUpdate),
      on_advertisement devices name mdata = AdvOutcome.updated u →
      u.temp_f = pyRound2 (32 + 9 * u.temp_c / 5)) ∧
    (∀ c : ℚ, |pyRound2 (32 + 9 * c / 5) - (32 + 9 * c / 5)| ≤ 1 / 200 ∧
      ∃ k : ℤ, pyRound2 (32 + 9 * c / 5) = (k : ℚ) / 100) ∧
    pyRound2 (32 + 9 * 0 / 5) = 32 ∧
    pyRound2 (32 + 9 * 100 / 5) = 212 ∧
    pyRound2 (32 + 9 * (-40) / 5) = -40 := by
  refine ⟨?_, ?_, ?_, ?_, ?_⟩
  · intro devices name mdata u hu
    exact (on_advertisement_updated_elim devices name mdata u hu).2.2
  · intro c
    exact ⟨pyRound2_close _, ⟨roundHalfEven ((32 + 9 * c / 5) * 100), rfl⟩⟩
  · norm_num [pyRound2, roundHalfEven]
  · norm_num [pyRound2, roundHalfEven]
  · norm_num [pyRound2, roundHalfEven]

/-- Witness for C9 at the 0 °C metric update. -/
theorem fahrenheit_rounding_witness :
    (32 : ℚ) = pyRound2 (32 + 9 * 0 / 5) :=
  fahrenheit_rounding.1 [] "GVH5075_AB" [(0xEC88, [0, 0, 0, 0, 100])]
    ⟨"GVH5075_AB", "GVH5075_AB", 0, 32, 0, 100⟩ on_advertisement_zero_example
